import Mathlib

/-!
Verification of the health-assistant dashboard core (src/app.py).

Shallow embedding of the persistence, session and gateway logic of
`src/app.py`. Conventions:

* SQLite tables become Lean lists of structure rows, in rowid
  (insertion) order; `AUTOINCREMENT` ids are modelled by a sequence
  counter stored next to each table.
* The `created_at` / `uploaded_at` columns hold the text
  `time.strftime "%Y-%m-%d %H:%M"`; on this fixed-width format SQLite
  text comparison agrees with chronological order, so timestamps are
  modelled as `Nat` (minute resolution, exactly as coarse as the
  source format).
* The server clock is external: each operation that reads the clock
  takes the current time as an explicit argument.
* `hashlib.sha256(...).hexdigest()` is an external library call; it is
  modelled as an explicit function argument `sha : String → String`
  threaded through the credential operations.
* Streamlit `st.error`/`st.success` outcomes become an `Except` value
  whose error constructors follow the error taxonomy of the spec
  (one constructor per distinct user-visible failure message).
* `st.session_state` becomes the structure `SessionState`.
* The uploads directory is a flat mapping from stored file name to
  byte content (`Vault`); bytes are `List Nat`.
* The Gemini call is external: `generate_content` is an explicit
  argument of type `String → Except String String`, `.error e`
  standing for a raised exception with message `e`.
-/

/-- Error taxonomy for the signup / login forms, one constructor per
distinct user-visible failure branch of `signup_ui` / `login_ui`. -/
inductive UiError where
  /-- Message "Please fill all fields." / "Please fill both fields." -/
  | invalidInput
  /-- Message "Passwords do not match." -/
  | passwordMismatch
  /-- Message "Username already exists." -/
  | alreadyExists
  /-- Message "Invalid username or password." -/
  | invalidCredentials
deriving DecidableEq, Repr

/-- Function `make_hash` of app.py applies `hashlib.sha256` (external library),
here the explicit argument `sha`. -/
def make_hash (sha : String → String) (password : String) : String :=
  sha password

/-- Function `verify_hash` of app.py: equality of hashes, never of plaintext. -/
def verify_hash (sha : String → String) (password hashed : String) : Bool :=
  make_hash sha password == hashed

/-- The `users` table: rows `(username, password)` where the password
column holds the hash, in insertion order. `username` is the primary
key, so lookups return the first (unique) match. -/
abbrev UsersTable := List (String × String)

/-- Query `SELECT password FROM users WHERE username=?` plus `fetchone()`. -/
def lookup_user (users : UsersTable) (username : String) : Option String :=
  (users.find? (fun r => r.1 == username)).map (fun r => r.2)

/-- One chat-history entry `{"q": ..., "a": ..., "time": ...}`. -/
structure ChatTurn where
  q : String
  a : String
  time : Nat
deriving DecidableEq, Repr

/-- One cart value `{"qty": qty, "total": price * qty}`. -/
structure CartEntry where
  qty : Nat
  total : Nat
deriving DecidableEq, Repr

/-- The Python dict `st.session_state.cart`: association list in dict
order (updating an existing key keeps its position, a new key is
appended). Keys are distinct, as in any Python dict. -/
abbrev Cart := List (String × CartEntry)

/-- State `st.session_state`: the fields of app.py that the embedded
operations touch (`logged_in`, `user`, `cart`, `history`). -/
structure SessionState where
  logged_in : Bool
  user : Option String
  cart : Cart
  history : List ChatTurn
deriving DecidableEq, Repr

/-- The initial session of app.py lines 105-111 (history is created
lazily as `[]` on first use). -/
def init_session : SessionState :=
  { logged_in := false, user := none, cart := [], history := [] }

/-- The `signup_ui` submit branch (app.py lines 155-168): empty-field
check, confirm-password check, duplicate check, then
`INSERT INTO users (username, password) VALUES (?, make_hash p)`.
Returns the new users table on success. -/
def signup_ui (sha : String → String) (users : UsersTable)
    (username password password2 : String) : Except UiError UsersTable :=
  if username = "" ∨ password = "" then
    .error .invalidInput
  else if password ≠ password2 then
    .error .passwordMismatch
  else if (lookup_user users username).isSome then
    .error .alreadyExists
  else
    .ok (users ++ [(username, make_hash sha password)])

/-- The `login_ui` submit branch (app.py lines 176-189): empty-field
check, then `row = fetchone()`; `if row and verify_hash(password,
row[0])` sets `logged_in`/`user`, otherwise one shared error branch
"Invalid username or password." for both the unknown-user and the
wrong-password case. -/
def login_ui (sha : String → String) (users : UsersTable)
    (s : SessionState) (username password : String) :
    Except UiError SessionState :=
  if username = "" ∨ password = "" then
    .error .invalidInput
  else
    match lookup_user users username with
    | some stored =>
        if verify_hash sha password stored then
          .ok { s with logged_in := true, user := some username }
        else
          .error .invalidCredentials
    | none => .error .invalidCredentials

/-- Logout button branch of `main` (app.py lines 661-665): sets
`logged_in := False` and `user := None`, touches nothing else. -/
def logout (s : SessionState) : SessionState :=
  { s with logged_in := false, user := none }

/-- Assignment `st.session_state.cart[name] = {"qty": qty, "total": price * qty}`
(app.py line 572): Python dict assignment, i.e. replace in place if
the key is present, append otherwise. -/
def add_to_cart (cart : Cart) (item : String) (qty price : Nat) : Cart :=
  if cart.any (fun p => p.1 == item) then
    cart.map (fun p => if p.1 == item then (item, ⟨qty, price * qty⟩) else p)
  else
    cart ++ [(item, ⟨qty, price * qty⟩)]

/-- Checkout button branch (app.py lines 583-585):
`st.session_state.cart = {}`. -/
def checkout (_cart : Cart) : Cart :=
  []

/-- The f-string prompt composed inside `gemini_medical_answer`
(app.py lines 261-265). Only `mode` and `user_prompt` occur in it. -/
def compose_prompt (mode user_prompt : String) : String :=
  "You are a medical information assistant (mode: " ++ mode ++ ").\n" ++
  "Provide safe, factual, and general health guidance. DO NOT diagnose or prescribe medications.\n" ++
  "User question: " ++ user_prompt ++ "\n\nPlease respond clearly and concisely."

/-- The diagnostic text of the `except` branch of
`gemini_medical_answer` (app.py line 270). -/
def gemini_error_text (e : String) : String :=
  "(Gemini error: " ++ e ++ ")\nI couldn\x27t fetch an AI response — check API key/network."

/-- Function `gemini_medical_answer` (app.py lines 257-270). The whole `try`
body — model construction, `generate_content`, and the
`resp.text if hasattr(resp, "text") else str(resp)` extraction — is
the external behaviour `generate_content : String → Except String
String` (`.error e` is a raised exception with message `e`). The
`except` branch turns any exception into `gemini_error_text`. `lang`
is a parameter of the source function and is kept here; the body does
not use it. -/
def gemini_medical_answer (generate_content : String → Except String String)
    (user_prompt : String) (mode : String) (lang : String) : String :=
  match generate_content (compose_prompt mode user_prompt) with
  | .ok text => text
  | .error e => gemini_error_text e

/-- A row of the `appointments` table (app.py lines 46-64).
`emergency` / `followup` are stored as the integers 0/1, exactly as
inserted by `1 if emergency else 0`. -/
structure Appointment where
  id : Nat
  username : String
  patient_name : String
  age : Nat
  gender : String
  phone : String
  email : String
  department : String
  doctor : String
  date : String
  time : String
  type : String
  symptoms : String
  emergency : Nat
  followup : Nat
  created_at : Nat
deriving DecidableEq, Repr

/-- A row of the `medical_reports` table (app.py lines 69-79). -/
structure MedicalReport where
  id : Nat
  username : String
  name : String
  file_name : String
  type : String
  date : String
  notes : String
  uploaded_at : Nat
deriving DecidableEq, Repr

/-- A row of the `prescriptions` table (app.py lines 85-92). -/
structure Prescription where
  id : Nat
  username : String
  symptoms : String
  suggestion : String
  created_at : Nat
deriving DecidableEq, Repr

/-- The SQLite database `app_data.db`: the four tables in rowid order,
plus one `AUTOINCREMENT` sequence counter per table with an
auto-increment id (the last id handed out; ids are never reused). -/
structure DB where
  users : UsersTable
  appointments : List Appointment
  medical_reports : List MedicalReport
  prescriptions : List Prescription
  appointments_seq : Nat
  medical_reports_seq : Nat
  prescriptions_seq : Nat
deriving DecidableEq, Repr

/-- Function `save_prescription_to_db` (app.py lines 274-279):
`INSERT INTO prescriptions (username, symptoms, suggestion,
created_at) VALUES (?, ?, ?, strftime-now)`. -/
def save_prescription_to_db (db : DB) (username symptoms suggestion : String)
    (now : Nat) : DB :=
  { db with
    prescriptions :=
      db.prescriptions ++
        [{ id := db.prescriptions_seq + 1, username := username,
           symptoms := symptoms, suggestion := suggestion,
           created_at := now }],
    prescriptions_seq := db.prescriptions_seq + 1 }

/-- The appointment-form `INSERT INTO appointments ...` of
`show_dashboard` (app.py lines 467-491). -/
def insert_appointment (db : DB) (username patient_name : String) (age : Nat)
    (gender phone email department doctor date time type symptoms : String)
    (emergency followup : Bool) (now : Nat) : DB :=
  { db with
    appointments :=
      db.appointments ++
        [{ id := db.appointments_seq + 1, username := username,
           patient_name := patient_name, age := age, gender := gender,
           phone := phone, email := email, department := department,
           doctor := doctor, date := date, time := time, type := type,
           symptoms := symptoms,
           emergency := if emergency then 1 else 0,
           followup := if followup then 1 else 0,
           created_at := now }],
    appointments_seq := db.appointments_seq + 1 }

/-- One step of `ORDER BY created_at DESC`: place `r` into an already
descending-sorted list, after every strictly newer element and before
every element that is not strictly newer. SQLite scans the table in
rowid order and its merge sorter keeps the scan order of rows that
compare equal, so this insertion (which keeps `r` before rows of equal
key that came later in the scan) is the stable refinement that matches
the engine. -/
def insert_desc {α : Type} (key : α → Nat) (r : α) : List α → List α
  | [] => [r]
  | x :: xs => if key r < key x then x :: insert_desc key r xs else r :: x :: xs

/-- Embeds `ORDER BY created_at DESC` as a stable descending sort. -/
def sort_desc {α : Type} (key : α → Nat) : List α → List α
  | [] => []
  | x :: xs => insert_desc key x (sort_desc key xs)

/-- Function `get_user_prescriptions` (app.py lines 281-283):
`SELECT ... FROM prescriptions WHERE username=? ORDER BY created_at
DESC`. The source projects the columns (id, symptoms, suggestion,
created_at); the embedding returns the whole rows, the order and
ownership being what the claims are about. -/
def get_user_prescriptions (db : DB) (username : String) : List Prescription :=
  sort_desc (fun r => r.created_at)
    (db.prescriptions.filter (fun r => r.username == username))

/-- The "Your Appointments" query of `show_dashboard` (app.py lines
497-501): `SELECT ... FROM appointments WHERE username=? ORDER BY
created_at DESC LIMIT 10` (the `status` column is absent from the
schema, so the first query raises and the `except` branch runs the
same filter/order/limit with a literal in place of `status`). -/
def get_user_appointments (db : DB) (username : String) : List Appointment :=
  (sort_desc (fun r => r.created_at)
    (db.appointments.filter (fun r => r.username == username))).take 10

/-- Function `delete_prescription` (app.py lines 285-287):
`DELETE FROM prescriptions WHERE id=?`. -/
def delete_prescription (db : DB) (pid : Nat) : DB :=
  { db with
    prescriptions := db.prescriptions.filter (fun r => r.id ≠ pid) }

/-- The uploads folder: a flat mapping from stored file name to byte
content (absent name = no such file on disk). -/
def Vault : Type := String → Option (List Nat)

/-- A value of `st.file_uploader`: original name plus the bytes that
`.read()` yields. -/
structure FileUpload where
  name : String
  content : List Nat
deriving DecidableEq, Repr

/-- Call `open(file_path, "wb").write(file_bytes)`: (over)writes the full
content under the given name. -/
def vault_write (v : Vault) (name : String) (content : List Nat) : Vault :=
  fun n => if n = name then some content else v n

/-- The stored file name `f"{int(time.time())}_{file.name}"` of
`save_medical_report` (app.py line 201); `now` is the unix-seconds
clock value. -/
def stored_file_name (now : Nat) (original : String) : String :=
  toString now ++ "_" ++ original

/-- Failure of the download branch: "File not found on server." -/
inductive VaultError where
  | notFound
deriving DecidableEq, Repr

/-- The download branch of `show_dashboard` (app.py lines 439-445):
`os.path.exists` then a full `open(file_path, "rb")` read, else the
not-found error. -/
def vault_read (v : Vault) (name : String) : Except VaultError (List Nat) :=
  match v name with
  | some content => .ok content
  | none => .error .notFound

/-- Function `save_medical_report` (app.py lines 197-209): returns `False` and
changes nothing when no file was chosen; otherwise writes the bytes
under the time-prefixed name, inserts the metadata row (display name
`name or file.name`), and returns `True`. `now` is the clock value in
unix seconds (the source formats the row timestamp from the same
clock). -/
def save_medical_report (db : DB) (v : Vault) (username : String)
    (file : Option FileUpload) (name report_type date_val notes : String)
    (now : Nat) : DB × Vault × Bool :=
  match file with
  | none => (db, v, false)
  | some f =>
      let fname := stored_file_name now f.name
      let v₂ := vault_write v fname f.content
      let db₂ :=
        { db with
          medical_reports :=
            db.medical_reports ++
              [{ id := db.medical_reports_seq + 1, username := username,
                 name := if name = "" then f.name else name,
                 file_name := fname, type := report_type, date := date_val,
                 notes := notes, uploaded_at := now }],
          medical_reports_seq := db.medical_reports_seq + 1 }
      (db₂, v₂, true)

/-!
Supporting lemmas.
-/

theorem lookup_user_eq_none_iff (users : UsersTable) (u : String) :
    lookup_user users u = none ↔ ∀ e ∈ users, e.1 ≠ u := by
  simp [lookup_user, List.find?_eq_none]

theorem lookup_user_append_single (users : UsersTable) (u h : String)
    (hfree : lookup_user users u = none) :
    lookup_user (users ++ [(u, h)]) u = some h := by
  induction users with
  | nil => simp [lookup_user]
  | cons e es ih =>
      have hall := (lookup_user_eq_none_iff (e :: es) u).mp hfree
      have he : e.1 ≠ u := hall e (List.mem_cons_self e es)
      have hes : lookup_user es u = none :=
        (lookup_user_eq_none_iff es u).mpr
          fun x hx => hall x (List.mem_cons_of_mem e hx)
      have hbe : (e.1 == u) = false := beq_eq_false_iff_ne.mpr he
      have step : lookup_user ((e :: es) ++ [(u, h)]) u
          = lookup_user (es ++ [(u, h)]) u := by
        simp only [List.cons_append, lookup_user, List.find?_cons, hbe]
      rw [step, ih hes]

theorem mem_insert_desc {α : Type} (key : α → Nat) (r x : α) (l : List α) :
    x ∈ insert_desc key r l ↔ x = r ∨ x ∈ l := by
  induction l with
  | nil => simp [insert_desc]
  | cons y ys ih =>
      simp only [insert_desc]
      split
      · simp only [List.mem_cons, ih]
        tauto
      · exact List.mem_cons

theorem mem_sort_desc {α : Type} (key : α → Nat) (x : α) (l : List α) :
    x ∈ sort_desc key l ↔ x ∈ l := by
  induction l with
  | nil => simp [sort_desc]
  | cons y ys ih => simp [sort_desc, mem_insert_desc, ih]

theorem sort_desc_append_newest {α : Type} (key : α → Nat) (r : α)
    (l : List α) (h : ∀ x ∈ l, key x < key r) :
    sort_desc key (l ++ [r]) = r :: sort_desc key l := by
  induction l with
  | nil => simp [sort_desc, insert_desc]
  | cons y ys ih =>
      have hy : key y < key r := h y (List.mem_cons_self y ys)
      have hys : ∀ x ∈ ys, key x < key r :=
        fun x hx => h x (List.mem_cons_of_mem y hx)
      calc sort_desc key (y :: ys ++ [r])
          = insert_desc key y (r :: sort_desc key ys) := by
            rw [List.cons_append, sort_desc, ih hys]
        _ = r :: insert_desc key y (sort_desc key ys) := by
            rw [insert_desc, if_pos hy]
        _ = r :: sort_desc key (y :: ys) := rfl

theorem listing_after_append {α : Type} (key : α → Nat) (pred : α → Bool)
    (l : List α) (r : α) (hr : pred r = true)
    (h : ∀ x ∈ l, pred x = true → key x < key r) :
    sort_desc key ((l ++ [r]).filter pred) =
      r :: sort_desc key (l.filter pred) := by
  rw [List.filter_append]
  have hfr : List.filter pred [r] = [r] := by simp [hr]
  rw [hfr]
  exact sort_desc_append_newest key r (l.filter pred)
    fun x hx => h x (List.mem_filter.mp hx).1 (List.mem_filter.mp hx).2

theorem map_overwrite_absent_filter_nil (item : String) (newE : CartEntry)
    (l : Cart) (hall : ∀ p ∈ l, (p.1 == item) = false) :
    (l.map (fun p => if p.1 == item then (item, newE) else p)).filter
      (fun p => p.1 == item) = [] := by
  induction l with
  | nil => rfl
  | cons x xs ih =>
      have hx := hall x (List.mem_cons_self x xs)
      have hxs : ∀ p ∈ xs, (p.1 == item) = false :=
        fun p hp => hall p (List.mem_cons_of_mem x hp)
      simp only [List.map_cons]
      rw [if_neg (by simp [hx])]
      rw [List.filter_cons_of_neg (by simp [hx])]
      exact ih hxs

theorem map_overwrite_filter_single (item : String) (newE : CartEntry)
    (l : Cart) (hnodup : (l.map Prod.fst).Nodup)
    (hany : l.any (fun p => p.1 == item) = true) :
    (l.map (fun p => if p.1 == item then (item, newE) else p)).filter
      (fun p => p.1 == item) = [(item, newE)] := by
  induction l with
  | nil => simp at hany
  | cons x xs ih =>
      rw [List.map_cons, List.nodup_cons] at hnodup
      by_cases hx : x.1 = item
      · have hxs : ∀ p ∈ xs, (p.1 == item) = false := by
          intro p hp
          rw [beq_eq_false_iff_ne]
          intro hc
          apply hnodup.1
          rw [hx, ← hc]
          exact List.mem_map_of_mem Prod.fst hp
        simp only [List.map_cons]
        rw [if_pos (by simp [hx])]
        rw [List.filter_cons_of_pos (by simp)]
        rw [map_overwrite_absent_filter_nil item newE xs hxs]
      · have hx' : (x.1 == item) = false := beq_eq_false_iff_ne.mpr hx
        have hany' : xs.any (fun p => p.1 == item) = true := by
          rcases List.any_eq_true.mp hany with ⟨p, hp, hpitem⟩
          rcases List.mem_cons.mp hp with rfl | hp'
          · simp [hx'] at hpitem
          · exact List.any_eq_true.mpr ⟨p, hp', hpitem⟩
        simp only [List.map_cons]
        rw [if_neg (by simp [hx])]
        rw [List.filter_cons_of_neg (by simp [hx])]
        exact ih hnodup.2 hany'

/-!
Claim theorems.
-/

/-- C8: for every session state, `logout` sets the authenticated flag
to false and clears the bound username, and leaves every other session
field — in particular the chat history and the cart — unchanged. -/
theorem logout_clears_auth_and_frames_rest (s : SessionState) :
    (logout s).logged_in = false ∧ (logout s).user = none ∧
    (logout s).cart = s.cart ∧ (logout s).history = s.history :=
  ⟨rfl, rfl, rfl, rfl⟩

/-- C9: the text returned by `gemini_medical_answer` is independent of
its `lang` argument: with the same prompt, mode and underlying model
behaviour, any two `lang` values yield the identical result (`lang`
does not influence the composed prompt or the returned text). -/
theorem gemini_answer_independent_of_lang
    (generate_content : String → Except String String)
    (user_prompt mode lang₁ lang₂ : String) :
    gemini_medical_answer generate_content user_prompt mode lang₁ =
      gemini_medical_answer generate_content user_prompt mode lang₂ :=
  rfl

/-- C4: `gemini_medical_answer` never raises to its caller — it is a
total function into `String`: when the underlying service call raises
an error `e`, the result is the human-readable diagnostic text built
from `e`, returned as if it were a normal answer, and when the call
succeeds the result is the returned text. -/
theorem gemini_answer_total_and_catches
    (generate_content : String → Except String String)
    (user_prompt mode lang : String) :
    (∀ e, generate_content (compose_prompt mode user_prompt) = .error e →
      gemini_medical_answer generate_content user_prompt mode lang =
        gemini_error_text e) ∧
    (∀ t, generate_content (compose_prompt mode user_prompt) = .ok t →
      gemini_medical_answer generate_content user_prompt mode lang = t) := by
  constructor <;> intro x hx <;> simp [gemini_medical_answer, hx]

/-- Witness for C4 at a concrete failing service and a concrete
succeeding service. -/
theorem gemini_answer_total_and_catches_witness :
    gemini_medical_answer (fun _ => .error "quota exceeded") "am I ok"
        "General Health" "en" = gemini_error_text "quota exceeded" ∧
    gemini_medical_answer (fun _ => .ok "rest and hydrate") "am I ok"
        "General Health" "hi" = "rest and hydrate" :=
  ⟨(gemini_answer_total_and_catches (fun _ => .error "quota exceeded")
      "am I ok" "General Health" "en").1 "quota exceeded" rfl,
   (gemini_answer_total_and_catches (fun _ => .ok "rest and hydrate")
      "am I ok" "General Health" "hi").2 "rest and hydrate" rfl⟩

/-- C5: storing an uploaded file and then retrieving its stored name
returns byte-identical content to what was stored, and retrieving a
name for which no file exists in the vault fails with NotFound (the
read is of the whole stored content, never partial). -/
theorem vault_store_retrieve_roundtrip (db : DB) (v : Vault)
    (username : String) (f : FileUpload)
    (name report_type date_val notes : String) (now : Nat) :
    vault_read
        (save_medical_report db v username (some f) name report_type
          date_val notes now).2.1
        (stored_file_name now f.name) = .ok f.content ∧
    (∀ (v₂ : Vault) (n : String), v₂ n = none →
      vault_read v₂ n = .error .notFound) := by
  constructor
  · simp [save_medical_report, vault_read, vault_write]
  · intro v₂ n hn
    simp [vault_read, hn]

/-- Witness for C5: a concrete store/retrieve round trip on an empty
vault, and a retrieve of an absent name. -/
theorem vault_store_retrieve_roundtrip_witness :
    vault_read
        (save_medical_report ⟨[], [], [], [], 0, 0, 0⟩ (fun _ => none) "alice"
          (some ⟨"scan.pdf", [137, 80, 78, 71]⟩) "my scan" "X-Ray"
          "2024-05-01" "" 1714550000).2.1
        (stored_file_name 1714550000 "scan.pdf") = .ok [137, 80, 78, 71] ∧
    vault_read (fun _ => none) "missing.pdf" = .error .notFound :=
  ⟨(vault_store_retrieve_roundtrip ⟨[], [], [], [], 0, 0, 0⟩ (fun _ => none)
      "alice" ⟨"scan.pdf", [137, 80, 78, 71]⟩ "my scan" "X-Ray" "2024-05-01"
      "" 1714550000).1,
   (vault_store_retrieve_roundtrip ⟨[], [], [], [], 0, 0, 0⟩ (fun _ => none)
      "alice" ⟨"scan.pdf", [137, 80, 78, 71]⟩ "my scan" "X-Ray" "2024-05-01"
      "" 1714550000).2 (fun _ => none) "missing.pdf" rfl⟩

/-- C6: deleting an id that is not present in the prescriptions table
is a no-op: the store state (hence the row count) is unchanged and no
error arises; and `delete_prescription` is idempotent on every store
state. -/
theorem delete_prescription_missing_id_noop (db : DB) (pid : Nat)
    (h : ∀ r ∈ db.prescriptions, r.id ≠ pid) :
    delete_prescription db pid = db ∧
    (delete_prescription db pid).prescriptions.length =
      db.prescriptions.length ∧
    (∀ (db₂ : DB) (q : Nat),
      delete_prescription (delete_prescription db₂ q) q =
        delete_prescription db₂ q) := by
  have hfix : db.prescriptions.filter (fun r => r.id ≠ pid) =
      db.prescriptions :=
    List.filter_eq_self.mpr (by intro a ha; simpa using h a ha)
  refine ⟨?_, ?_, ?_⟩
  · unfold delete_prescription
    rw [hfix]
  · unfold delete_prescription
    rw [hfix]
  · intro db₂ q
    unfold delete_prescription
    simp [List.filter_filter]

/-- Witness for C6: deleting the absent id 2 from a one-row store
leaves the store identical. -/
theorem delete_prescription_missing_id_noop_witness :
    delete_prescription
        ⟨[("alice", "h1")], [], [],
          [{ id := 1, username := "alice", symptoms := "fever",
             suggestion := "rest", created_at := 100 }], 0, 0, 1⟩ 2 =
      ⟨[("alice", "h1")], [], [],
        [{ id := 1, username := "alice", symptoms := "fever",
           suggestion := "rest", created_at := 100 }], 0, 0, 1⟩ :=
  (delete_prescription_missing_id_noop
    ⟨[("alice", "h1")], [], [],
      [{ id := 1, username := "alice", symptoms := "fever",
         suggestion := "rest", created_at := 100 }], 0, 0, 1⟩ 2
    (by decide)).1

/-- C10: `delete_prescription pid` removes exactly the prescription
rows whose id equals `pid`, regardless of which username owns them —
the operation takes no session argument at all, so no ownership check
against the current session user is possible — and it leaves the
users, appointments and medical-reports tables and every prescription
row with a different id unchanged. -/
theorem delete_prescription_ignores_ownership (db : DB) (pid : Nat) :
    (delete_prescription db pid).users = db.users ∧
    (delete_prescription db pid).appointments = db.appointments ∧
    (delete_prescription db pid).medical_reports = db.medical_reports ∧
    (∀ r ∈ db.prescriptions, r.id = pid →
      r ∉ (delete_prescription db pid).prescriptions) ∧
    (∀ r ∈ db.prescriptions, r.id ≠ pid →
      r ∈ (delete_prescription db pid).prescriptions) ∧
    (∀ r ∈ (delete_prescription db pid).prescriptions,
      r ∈ db.prescriptions) := by
  refine ⟨rfl, rfl, rfl, ?_, ?_, ?_⟩
  · intro r _ hid hmem
    have := (List.mem_filter.mp hmem).2
    simp [hid] at this
  · intro r hr hne
    exact List.mem_filter.mpr ⟨hr, by simpa using hne⟩
  · intro r hr
    exact (List.mem_filter.mp hr).1

/-- Witness for C10: with the session user being "alice", deleting id
2 removes the row owned by "bob" while keeping the row owned by
"alice" and the appointments table. -/
theorem delete_prescription_ignores_ownership_witness :
    ({ id := 2, username := "bob", symptoms := "cough",
       suggestion := "syrup", created_at := 100 } : Prescription) ∉
      (delete_prescription
        ⟨[], [], [],
          [{ id := 1, username := "alice", symptoms := "fever",
             suggestion := "rest", created_at := 90 },
           { id := 2, username := "bob", symptoms := "cough",
             suggestion := "syrup", created_at := 100 }], 0, 0, 2⟩
        2).prescriptions ∧
    ({ id := 1, username := "alice", symptoms := "fever",
       suggestion := "rest", created_at := 90 } : Prescription) ∈
      (delete_prescription
        ⟨[], [], [],
          [{ id := 1, username := "alice", symptoms := "fever",
             suggestion := "rest", created_at := 90 },
           { id := 2, username := "bob", symptoms := "cough",
             suggestion := "syrup", created_at := 100 }], 0, 0, 2⟩
        2).prescriptions ∧
    (delete_prescription
        ⟨[], [], [],
          [{ id := 1, username := "alice", symptoms := "fever",
             suggestion := "rest", created_at := 90 },
           { id := 2, username := "bob", symptoms := "cough",
             suggestion := "syrup", created_at := 100 }], 0, 0, 2⟩
        2).appointments = [] :=
  ⟨(delete_prescription_ignores_ownership
      ⟨[], [], [],
        [{ id := 1, username := "alice", symptoms := "fever",
           suggestion := "rest", created_at := 90 },
         { id := 2, username := "bob", symptoms := "cough",
           suggestion := "syrup", created_at := 100 }], 0, 0, 2⟩
      2).2.2.2.1 _ (by decide) rfl,
   (delete_prescription_ignores_ownership
      ⟨[], [], [],
        [{ id := 1, username := "alice", symptoms := "fever",
           suggestion := "rest", created_at := 90 },
         { id := 2, username := "bob", symptoms := "cough",
           suggestion := "syrup", created_at := 100 }], 0, 0, 2⟩
      2).2.2.2.2.1 _ (by decide) (by decide),
   (delete_prescription_ignores_ownership
      ⟨[], [], [],
        [{ id := 1, username := "alice", symptoms := "fever",
           suggestion := "rest", created_at := 90 },
         { id := 2, username := "bob", symptoms := "cough",
           suggestion := "syrup", created_at := 100 }], 0, 0, 2⟩
      2).2.1⟩

/-- C7: `add_to_cart` overwrites any existing entry for the item name
(it is not additive): on any cart whose keys are distinct — every
Python dict state is — exactly one entry for the item remains, holding
the new quantity and a total equal to quantity × unit price; and
`checkout` empties the cart unconditionally. -/
theorem add_to_cart_overwrites_and_checkout_empties (cart : Cart)
    (item : String) (qty price : Nat)
    (hnodup : (cart.map Prod.fst).Nodup) :
    (add_to_cart cart item qty price).filter (fun e => e.1 == item) =
      [(item, ⟨qty, qty * price⟩)] ∧
    (∀ c : Cart, checkout c = []) := by
  constructor
  · rw [Nat.mul_comm qty price]
    unfold add_to_cart
    by_cases hany : cart.any (fun p => p.1 == item) = true
    · rw [if_pos hany]
      exact map_overwrite_filter_single item ⟨qty, price * qty⟩ cart hnodup hany
    · rw [if_neg hany]
      have hall : ∀ p ∈ cart, ¬((p.1 == item) = true) :=
        List.any_eq_false.mp (Bool.eq_false_iff.mpr hany)
      rw [List.filter_append, List.filter_eq_nil_iff.mpr hall]
      simp
  · intro c
    rfl

/-- Witness for C7: the scenario of the claim — add X with quantity 2
at unit price 50 and then again with quantity 3 — leaves exactly the
one entry (quantity 3, total 150), and checkout empties that cart. -/
theorem add_to_cart_overwrites_and_checkout_empties_witness :
    (add_to_cart (add_to_cart [] "X" 2 50) "X" 3 50).filter
      (fun e => e.1 == "X") = [("X", ⟨3, 150⟩)] ∧
    checkout (add_to_cart (add_to_cart [] "X" 2 50) "X" 3 50) = [] :=
  ⟨(add_to_cart_overwrites_and_checkout_empties (add_to_cart [] "X" 2 50)
      "X" 3 50 (by decide)).1,
   (add_to_cart_overwrites_and_checkout_empties (add_to_cart [] "X" 2 50)
      "X" 3 50 (by decide)).2 (add_to_cart (add_to_cart [] "X" 2 50) "X" 3 50)⟩

/-- C1 (amended): for every registered pair (u, p) — both fields
nonempty, as signup enforces — `login_ui` succeeds and binds the
session to u; `login_ui` for the registered u and a nonempty wrong
password whose hash differs from the stored hash, and `login_ui` for
an unregistered username with any nonempty password, both fail with
the single shared `invalidCredentials` outcome — the same constructor,
so the two failure cases are indistinguishable to the caller. (With an
empty username or password the form instead reports `invalidInput`
before consulting the store — see the counterexample.) -/
theorem login_binds_session_and_fails_uniformly (sha : String → String)
    (users : UsersTable) (s : SessionState) (u p : String)
    (hu : u ≠ "") (hp : p ≠ "")
    (hreg : lookup_user users u = some (make_hash sha p)) :
    login_ui sha users s u p =
      .ok { s with logged_in := true, user := some u } ∧
    (∀ wrong, wrong ≠ "" → make_hash sha wrong ≠ make_hash sha p →
      login_ui sha users s u wrong = .error .invalidCredentials) ∧
    (∀ unknown anything, unknown ≠ "" → anything ≠ "" →
      lookup_user users unknown = none →
      login_ui sha users s unknown anything = .error .invalidCredentials) := by
  refine ⟨?_, ?_, ?_⟩
  · simp [login_ui, hu, hp, hreg, verify_hash]
  · intro wrong hw hne
    simp [login_ui, hu, hw, hreg, verify_hash, hne]
  · intro unknown anything hun han hnone
    simp [login_ui, hun, han, hnone]

/-- Counterexample to C1 as stated: for the unregistered username
"unknown" and the password "" (an instance of "anything"), the login
fails with `invalidInput` ("Please fill both fields."), a
distinguishable outcome, not with the `invalidCredentials` outcome the
claim requires: the empty-field check runs before the credential
check. -/
theorem login_empty_password_distinguishable_failure :
    login_ui (fun x => x) [] init_session "unknown" "" =
      .error .invalidInput ∧
    UiError.invalidInput ≠ UiError.invalidCredentials :=
  ⟨rfl, by decide⟩

/-- Witness for C1 (amended) at a concrete store: "alice" is
registered with password "p1" under the hash function shown. -/
theorem login_binds_session_and_fails_uniformly_witness :
    login_ui (fun x => x) [("alice", "p1")] init_session "alice" "p1" =
      .ok { init_session with logged_in := true, user := some "alice" } ∧
    login_ui (fun x => x) [("alice", "p1")] init_session "alice" "zz" =
      .error .invalidCredentials ∧
    login_ui (fun x => x) [("alice", "p1")] init_session "bob" "p1" =
      .error .invalidCredentials := by
  have h := login_binds_session_and_fails_uniformly (fun x => x)
      [("alice", "p1")] init_session "alice" "p1" (by decide) (by decide) rfl
  exact ⟨h.1, h.2.1 "zz" (by decide) (by decide),
    h.2.2 "bob" "p1" (by decide) (by decide) rfl⟩

/-- C2 (amended): `register(u, p)` on a store without u succeeds and
stores exactly the pair (u, make_hash p) — the one-way hash, never the
plaintext; a second `register(u, p2)` then fails with `alreadyExists`
for every nonempty p2; `register` fails with `invalidInput` whenever
either field is empty. (For p2 = "" the second call reports
`invalidInput` instead of `alreadyExists` — see the counterexample.) -/
theorem register_duplicate_rejected_and_hash_stored (sha : String → String)
    (users : UsersTable) (u p : String) (hu : u ≠ "") (hp : p ≠ "")
    (hfree : lookup_user users u = none) :
    signup_ui sha users u p p = .ok (users ++ [(u, make_hash sha p)]) ∧
    (∀ p2, p2 ≠ "" →
      signup_ui sha (users ++ [(u, make_hash sha p)]) u p2 p2 =
        .error .alreadyExists) ∧
    (∀ (v q q2 : String), v = "" ∨ q = "" →
      signup_ui sha users v q q2 = .error .invalidInput) ∧
    (make_hash sha p ≠ p →
      ∀ pw, (u, pw) ∈ users ++ [(u, make_hash sha p)] → pw ≠ p) := by
  refine ⟨?_, ?_, ?_, ?_⟩
  · simp [signup_ui, hu, hp, hfree]
  · intro p2 hp2
    have hfound := lookup_user_append_single users u (make_hash sha p) hfree
    simp [signup_ui, hu, hp2, hfound]
  · intro v q q2 hvq
    simp [signup_ui, hvq]
  · intro hne pw hmem
    rcases List.mem_append.mp hmem with hin | hin
    · exact absurd rfl (((lookup_user_eq_none_iff users u).mp hfree) (u, pw) hin)
    · have hpw : pw = make_hash sha p := by
        simpa using (List.mem_singleton.mp hin)
      rw [hpw]
      exact hne

/-- Counterexample to C2 as stated: after a successful
`register("alice", "p1")`, the second call with p2 = "" fails with
`invalidInput` ("Please fill all fields."), not with `alreadyExists`:
the empty-field check runs before the duplicate check, so the second
call does not fail with `alreadyExists` "regardless of p2". -/
theorem register_second_call_empty_password_not_already_exists :
    signup_ui (fun x => x) [] "alice" "p1" "p1" = .ok [("alice", "p1")] ∧
    signup_ui (fun x => x) [("alice", "p1")] "alice" "" "" =
      .error .invalidInput ∧
    UiError.invalidInput ≠ UiError.alreadyExists :=
  ⟨rfl, rfl, by decide⟩

/-- Witness for C2 (amended) at a concrete store and hash function
(one for which hash and plaintext differ). -/
theorem register_duplicate_rejected_and_hash_stored_witness :
    signup_ui (fun x => x ++ "#") [] "alice" "p1" "p1" =
      .ok [("alice", "p1#")] ∧
    signup_ui (fun x => x ++ "#") [("alice", "p1#")] "alice" "p2" "p2" =
      .error .alreadyExists ∧
    signup_ui (fun x => x ++ "#") [] "" "x" "x" = .error .invalidInput ∧
    ("p1#" : String) ≠ "p1" := by
  have h := register_duplicate_rejected_and_hash_stored (fun x => x ++ "#")
      [] "alice" "p1" (by decide) (by decide) rfl
  exact ⟨h.1, h.2.1 "p2" (by decide), h.2.2.1 "" "x" "x" (Or.inl rfl),
    h.2.2.2 (by decide) "p1#" (by decide)⟩

/-- C3 (amended): inserting a prescription (resp. an appointment)
whose creation timestamp is strictly newer than that of every row the
user already owns, and then listing that entity kind for that user,
returns the newly inserted row first, the listing being in descending
creation-time order; and rows owned by a different username never
appear in a user's listing. (Creation timestamps have minute
resolution, so two inserts within the same minute tie on `created_at`;
the order then keeps the older row first — see the counterexample —
which is why strict newness is required.) -/
theorem listings_return_newest_first_and_are_owner_scoped :
    (∀ (db : DB) (u symptoms suggestion : String) (now : Nat),
      (∀ r ∈ db.prescriptions, r.username = u → r.created_at < now) →
      ∃ tl, get_user_prescriptions
          (save_prescription_to_db db u symptoms suggestion now) u =
        { id := db.prescriptions_seq + 1, username := u,
          symptoms := symptoms, suggestion := suggestion,
          created_at := now } :: tl) ∧
    (∀ (db : DB) (u pn : String) (age : Nat)
        (g ph em dep doc d t ty sy : String) (e f : Bool) (now : Nat),
      (∀ r ∈ db.appointments, r.username = u → r.created_at < now) →
      ∃ tl, get_user_appointments
          (insert_appointment db u pn age g ph em dep doc d t ty sy e f now)
          u =
        { id := db.appointments_seq + 1, username := u, patient_name := pn,
          age := age, gender := g, phone := ph, email := em,
          department := dep, doctor := doc, date := d, time := t,
          type := ty, symptoms := sy,
          emergency := if e then 1 else 0,
          followup := if f then 1 else 0, created_at := now } :: tl) ∧
    (∀ (db : DB) (u : String), ∀ r ∈ get_user_prescriptions db u,
      r.username = u) ∧
    (∀ (db : DB) (u : String), ∀ r ∈ get_user_appointments db u,
      r.username = u) := by
  refine ⟨?_, ?_, ?_, ?_⟩
  · intro db u symptoms suggestion now h
    refine ⟨sort_desc (fun r => r.created_at)
      (db.prescriptions.filter (fun r => r.username == u)), ?_⟩
    simp only [get_user_prescriptions, save_prescription_to_db]
    rw [listing_after_append (fun r : Prescription => r.created_at)
      (fun r => r.username == u) db.prescriptions]
    · simp
    · intro x hx hpx
      exact h x hx (by simpa using hpx)
  · intro db u pn age g ph em dep doc d t ty sy e f now h
    refine ⟨(sort_desc (fun r => r.created_at)
      (db.appointments.filter (fun r => r.username == u))).take 9, ?_⟩
    simp only [get_user_appointments, insert_appointment]
    rw [listing_after_append (fun r : Appointment => r.created_at)
      (fun r => r.username == u) db.appointments]
    · rfl
    · simp
    · intro x hx hpx
      exact h x hx (by simpa using hpx)
  · intro db u r hr
    have hmem : r ∈ (db.prescriptions.filter (fun r => r.username == u)) :=
      (mem_sort_desc (fun r : Prescription => r.created_at) r _).mp hr
    exact beq_iff_eq.mp (List.mem_filter.mp hmem).2
  · intro db u r hr
    have hmem : r ∈ (db.appointments.filter (fun r => r.username == u)) :=
      (mem_sort_desc (fun r : Appointment => r.created_at) r _).mp
        (List.mem_of_mem_take hr)
    exact beq_iff_eq.mp (List.mem_filter.mp hmem).2

/-- Counterexample to C3 as stated: two prescriptions for "alice"
inserted within the same minute carry equal `created_at` values
(minute-resolution text). After the second insert the listing returns
the OLDER row (id 1) first, not the newly inserted row (id 2):
`ORDER BY created_at DESC` cannot place the new row ahead of an
equal-timestamp older row. -/
theorem listing_same_minute_new_row_not_first :
    get_user_prescriptions
        (save_prescription_to_db
          (save_prescription_to_db ⟨[], [], [], [], 0, 0, 0⟩
            "alice" "fever" "rest" 100)
          "alice" "cough" "syrup" 100)
        "alice" =
      [{ id := 1, username := "alice", symptoms := "fever",
         suggestion := "rest", created_at := 100 },
       { id := 2, username := "alice", symptoms := "cough",
         suggestion := "syrup", created_at := 100 }] ∧
    ({ id := 1, username := "alice", symptoms := "fever",
       suggestion := "rest", created_at := 100 } : Prescription) ≠
      { id := 2, username := "alice", symptoms := "cough",
        suggestion := "syrup", created_at := 100 } := by
  exact ⟨rfl, by decide⟩

/-- Witness for C3 (amended): inserting at minute 101 into a store
whose only "alice" row is from minute 100 lists the new row first, and
a row owned by "bob" never appears in the listing of "alice". -/
theorem listings_return_newest_first_and_are_owner_scoped_witness :
    (∃ tl, get_user_prescriptions
        (save_prescription_to_db
          ⟨[], [], [],
            [{ id := 1, username := "alice", symptoms := "fever",
               suggestion := "rest", created_at := 100 },
             { id := 2, username := "bob", symptoms := "ache",
               suggestion := "balm", created_at := 300 }], 0, 0, 2⟩
          "alice" "cough" "syrup" 101)
        "alice" =
      { id := 3, username := "alice", symptoms := "cough",
        suggestion := "syrup", created_at := 101 } :: tl) ∧
    (∀ r ∈ get_user_prescriptions
        ⟨[], [], [],
          [{ id := 1, username := "alice", symptoms := "fever",
             suggestion := "rest", created_at := 100 },
           { id := 2, username := "bob", symptoms := "ache",
             suggestion := "balm", created_at := 300 }], 0, 0, 2⟩
        "alice", r.username = "alice") :=
  ⟨(listings_return_newest_first_and_are_owner_scoped.1
      ⟨[], [], [],
        [{ id := 1, username := "alice", symptoms := "fever",
           suggestion := "rest", created_at := 100 },
         { id := 2, username := "bob", symptoms := "ache",
           suggestion := "balm", created_at := 300 }], 0, 0, 2⟩
      "alice" "cough" "syrup" 101 (by decide)),
   (listings_return_newest_first_and_are_owner_scoped.2.2.1
      ⟨[], [], [],
        [{ id := 1, username := "alice", symptoms := "fever",
           suggestion := "rest", created_at := 100 },
         { id := 2, username := "bob", symptoms := "ache",
           suggestion := "balm", created_at := 300 }], 0, 0, 2⟩
      "alice")⟩
